import Mathlib

/-!
Shallow embedding of the mercadotech backend core (services + repositories)
over an explicit database state.  Mongo ObjectIds are natural numbers,
documents are structures, collections are lists, and each service operation
is a function `DB → args → DB × Except Err result` threading the database
the way the JS code threads the live Mongo connection (every repository
`await` persists immediately, so a thrown error leaves earlier writes in
place).
-/

namespace MercadoTech

/-- Mongo ObjectIds, modelled as naturals. -/
abbrev Id := Nat

/-- `models/Product.js` (images and createdAt omitted: no operation in scope
reads them). -/
structure Product where
  _id : Id
  name : String
  description : String
  price : Nat
  stock : Nat
  store : Id
  category : Option Id
deriving Repr, DecidableEq

/-- `models/Store.js` (name/description/createdAt kept minimal). -/
structure Store where
  _id : Id
  name : String
  description : String
  owner : Id
  status : String
deriving Repr, DecidableEq

/-- An order line item, embedded in `models/Order.js` `items`: snapshot
copies of name and price plus references to product and store. -/
structure OrderItem where
  product : Id
  name : String
  quantity : Nat
  price : Nat
  store : Id
deriving Repr, DecidableEq

/-- One entry of `models/Order.js` `statusHistory`. -/
structure StatusEntry where
  status : String
  updatedBy : Id
  timestamp : Nat
deriving Repr, DecidableEq

/-- `models/Order.js` `shippingAddress` subdocument. -/
structure ShippingAddress where
  address : String
  city : String
  postalCode : String
  country : String
deriving Repr, DecidableEq

/-- `models/Order.js` `paymentResult` subdocument. -/
structure PaymentResult where
  id : String
  status : String
  update_time : String
  email_address : String
deriving Repr, DecidableEq

/-- `models/Order.js`. -/
structure Order where
  _id : Id
  user : Id
  items : List OrderItem
  total : Nat
  shippingAddress : ShippingAddress
  status : String
  statusHistory : List StatusEntry
  paymentResult : PaymentResult
deriving Repr, DecidableEq

/-- A cart item as stored in Mongo (`models/Cart.js` `items`): the product
field is a plain ObjectId reference. -/
structure StoredCartItem where
  product : Id
  quantity : Nat
  store : Id
deriving Repr, DecidableEq

/-- `models/Cart.js` as stored. -/
structure StoredCart where
  user : Id
  items : List StoredCartItem
deriving Repr, DecidableEq

/-- The `product` field of an in-memory cart item.  After
`.populate('items.product')` it is the referenced Product document (or JS
`null` when the reference is dangling); an item freshly pushed by
`CartService.syncCart` carries the raw identifier string instead. -/
inductive CartProd where
  | raw (id : Id)
  | pop (p : Option Product)
deriving Repr, DecidableEq

/-- An in-memory cart item as handled by `CartService`. -/
structure CartItem where
  product : CartProd
  quantity : Nat
  store : Id
deriving Repr, DecidableEq

/-- An in-memory cart as returned by the cart repository. -/
structure Cart where
  user : Id
  items : List CartItem
deriving Repr, DecidableEq

/-- An item of the `syncCart` request payload: `{product, quantity, store}`
with `product` a plain identifier. -/
structure LocalItem where
  product : Id
  quantity : Nat
  store : Id
deriving Repr, DecidableEq

/-- An item of the `createOrder` request payload: `{product, quantity}`. -/
structure CreateItem where
  product : Id
  quantity : Nat
deriving Repr, DecidableEq

/-- The errors thrown (as strings) by the services, plus the JS `TypeError`
that `syncCart` can raise by accessing `._id` on a non-document. -/
inductive Err where
  | emptyOrder
  | productNotFoundId (id : Id)
  | productNotFound
  | insufficientStock (name : String)
  | orderNotFound
  | noStore
  | storeNotApproved
  | notAuthorizedUpdate
  | notAuthorizedDelete
  | storeNotFound
  | duplicateStore
  | typeError
deriving Repr, DecidableEq

/-- The literal message each thrown `Error` carries in the source. -/
def Err.message : Err → String
  | .emptyOrder => "No hay artículos en el pedido"
  | .productNotFoundId id => "Producto no encontrado: " ++ toString id
  | .productNotFound => "Producto no encontrado"
  | .insufficientStock name => "Stock insuficiente para el producto: " ++ name
  | .orderNotFound => "Pedido no encontrado"
  | .noStore => "El usuario no tiene una tienda"
  | .storeNotApproved => "La tienda aún no ha sido aprobada"
  | .notAuthorizedUpdate => "No autorizado para actualizar este producto"
  | .notAuthorizedDelete => "No autorizado para eliminar este producto"
  | .storeNotFound => "Tienda no encontrada"
  | .duplicateStore => "El usuario ya tiene una tienda"
  | .typeError => "TypeError: Cannot read properties of undefined"

deriving instance DecidableEq for Except

/-- The whole persistent state: one field per Mongo collection, counters for
fresh ObjectIds. -/
structure DB where
  products : List Product
  stores : List Store
  orders : List Order
  carts : List StoredCart
  nextOrderId : Id
  nextProductId : Id
deriving Repr, DecidableEq

/-- The partial update document passed to `Product.findByIdAndUpdate`:
only the fields present are changed. -/
structure ProductUpdate where
  name : Option String := none
  description : Option String := none
  price : Option Nat := none
  stock : Option Nat := none
  category : Option (Option Id) := none
deriving Repr, DecidableEq

/-- Apply a partial update document to a product. -/
def applyProductUpdate (p : Product) (u : ProductUpdate) : Product :=
  { p with
    name := u.name.getD p.name
    description := u.description.getD p.description
    price := u.price.getD p.price
    stock := u.stock.getD p.stock
    category := u.category.getD p.category }

namespace productRepository

/-- `productRepository.findById`: `Product.findById(id)`. -/
def findById (db : DB) (id : Id) : Option Product :=
  db.products.find? (fun p => p._id = id)

/-- `productRepository.update`: `Product.findByIdAndUpdate(id, updateData,
{new: true})` — returns the updated document, or `null` (db untouched) when
no product matches. -/
def update (db : DB) (id : Id) (u : ProductUpdate) : DB × Option Product :=
  match db.products.find? (fun p => p._id = id) with
  | none => (db, none)
  | some p =>
    let p' := applyProductUpdate p u
    ({ db with
        products := db.products.map (fun q => if q._id = id then applyProductUpdate q u else q) },
      some p')

/-- `productRepository.delete`: `Product.findByIdAndDelete(id)`. -/
def delete (db : DB) (id : Id) : DB × Option Product :=
  match db.products.find? (fun p => p._id = id) with
  | none => (db, none)
  | some p =>
    ({ db with products := db.products.filter (fun q => ¬ q._id = id) }, some p)

end productRepository

namespace storeRepository

/-- `storeRepository.findByOwner`: `Store.findOne({owner: userId})`. -/
def findByOwner (db : DB) (userId : Id) : Option Store :=
  db.stores.find? (fun s => s.owner = userId)

/-- The partial update document for `Store.findByIdAndUpdate`. -/
structure StoreUpdate where
  name : Option String := none
  description : Option String := none
deriving Repr, DecidableEq

/-- Apply a store update document. -/
def applyStoreUpdate (s : Store) (u : StoreUpdate) : Store :=
  { s with name := u.name.getD s.name, description := u.description.getD s.description }

/-- `storeRepository.update`: `Store.findByIdAndUpdate(id, data, {new: true})`. -/
def update (db : DB) (id : Id) (u : StoreUpdate) : DB × Option Store :=
  match db.stores.find? (fun s => s._id = id) with
  | none => (db, none)
  | some s =>
    ({ db with stores := db.stores.map (fun t => if t._id = id then applyStoreUpdate t u else t) },
      some (applyStoreUpdate s u))

end storeRepository

namespace orderRepository

/-- `orderRepository.findById`: `Order.findById(id)` (the populates attach
display data only and are irrelevant to the fields in scope). -/
def findById (db : DB) (id : Id) : Option Order :=
  db.orders.find? (fun o => o._id = id)

/-- `orderRepository.create`: `new Order(orderData).save()`, which assigns a
fresh ObjectId. -/
def create (db : DB) (user : Id) (items : List OrderItem) (total : Nat)
    (shippingAddress : ShippingAddress) (status : String)
    (paymentResult : PaymentResult) : DB × Order :=
  let o : Order :=
    { _id := db.nextOrderId, user := user, items := items, total := total,
      shippingAddress := shippingAddress, status := status,
      statusHistory := [], paymentResult := paymentResult }
  ({ db with orders := db.orders ++ [o], nextOrderId := db.nextOrderId + 1 }, o)

end orderRepository

/-- `order.save()` after in-place mutation: writes the document back over the
stored one with the same `_id`. -/
def DB.saveOrder (db : DB) (o : Order) : DB :=
  { db with orders := db.orders.map (fun q => if q._id = o._id then o else q) }

/-- The in-place mutation `OrderService.updateOrderStatus` performs on the
fetched order: push a history entry, set the current status. -/
def Order.withStatus (o : Order) (st : String) (uid : Id) (now : Nat) : Order :=
  { o with
    statusHistory := o.statusHistory ++
      [{ status := st, updatedBy := uid, timestamp := now }],
    status := st }

namespace OrderService

/-- The `for (const item of items)` loop of `OrderService.createOrder`:
looks the product up, throws when missing or short of stock, otherwise
persists the decrement immediately (`productRepository.update`), appends the
snapshot line item and accumulates the total.  A throw returns the database
as already mutated by the earlier iterations. -/
def createOrderLoop (db : DB) (items : List CreateItem) (total : Nat)
    (orderItems : List OrderItem) : DB × Except Err (Nat × List OrderItem) :=
  match items with
  | [] => (db, .ok (total, orderItems))
  | item :: rest =>
    match productRepository.findById db item.product with
    | none => (db, .error (.productNotFoundId item.product))
    | some product =>
      if product.stock < item.quantity then
        (db, .error (.insufficientStock product.name))
      else
        let db1 := (productRepository.update db product._id
          { stock := some (product.stock - item.quantity) }).1
        createOrderLoop db1 rest (total + product.price * item.quantity)
          (orderItems ++ [{ product := product._id, name := product.name,
                            quantity := item.quantity, price := product.price,
                            store := product.store }])

/-- `OrderService.createOrder`. -/
def createOrder (db : DB) (userId : Id) (items : List CreateItem)
    (shippingAddress : ShippingAddress) (now : Nat) : DB × Except Err Order :=
  if items = [] then (db, .error .emptyOrder)
  else
    match createOrderLoop db items 0 [] with
    | (db1, .error e) => (db1, .error e)
    | (db1, .ok (total, orderItems)) =>
      let (db2, order) := orderRepository.create db1 userId orderItems total
        shippingAddress "PAID"
        { id := "mock_payment_" ++ toString now, status := "COMPLETED",
          update_time := toString now, email_address := "mock@example.com" }
      (db2, .ok order)

/-- `OrderService.updateOrderStatus`. -/
def updateOrderStatus (db : DB) (orderId : Id) (status : String) (userId : Id)
    (now : Nat) : DB × Except Err Order :=
  match orderRepository.findById db orderId with
  | none => (db, .error .orderNotFound)
  | some order =>
    let order' := { order with
      statusHistory := order.statusHistory ++
        [{ status := status, updatedBy := userId, timestamp := now }],
      status := status }
    (db.saveOrder order', .ok order')

end OrderService

/-- The creation payload for `ProductService.createProduct` (the spread
`{...productData, store: store._id}`). -/
structure ProductData where
  name : String
  description : String
  price : Nat
  stock : Nat
  category : Option Id
deriving Repr, DecidableEq

namespace ProductService

/-- `ProductService.createProduct`. -/
def createProduct (db : DB) (userId : Id) (productData : ProductData) :
    DB × Except Err Product :=
  match storeRepository.findByOwner db userId with
  | none => (db, .error .noStore)
  | some store =>
    if store.status ≠ "APPROVED" then (db, .error .storeNotApproved)
    else
      let p : Product :=
        { _id := db.nextProductId, name := productData.name,
          description := productData.description, price := productData.price,
          stock := productData.stock, store := store._id,
          category := productData.category }
      ({ db with products := db.products ++ [p],
                 nextProductId := db.nextProductId + 1 }, .ok p)

/-- `ProductService.updateProduct`.  Note the single guard
`if (!store || store._id.toString() !== product.store.toString())`: both the
no-store case and the wrong-store case throw the same
'No autorizado para actualizar este producto'. -/
def updateProduct (db : DB) (userId : Id) (productId : Id)
    (updateData : ProductUpdate) : DB × Except Err Product :=
  match productRepository.findById db productId with
  | none => (db, .error .productNotFound)
  | some product =>
    match storeRepository.findByOwner db userId with
    | none => (db, .error .notAuthorizedUpdate)
    | some store =>
      if store._id ≠ product.store then (db, .error .notAuthorizedUpdate)
      else
        match productRepository.update db productId updateData with
        | (db1, some p') => (db1, .ok p')
        | (db1, none) => (db1, .error .productNotFound)

/-- `ProductService.deleteProduct` (same guard shape as `updateProduct`). -/
def deleteProduct (db : DB) (userId : Id) (productId : Id) :
    DB × Except Err Product :=
  match productRepository.findById db productId with
  | none => (db, .error .productNotFound)
  | some product =>
    match storeRepository.findByOwner db userId with
    | none => (db, .error .notAuthorizedDelete)
    | some store =>
      if store._id ≠ product.store then (db, .error .notAuthorizedDelete)
      else
        match productRepository.delete db productId with
        | (db1, some p') => (db1, .ok p')
        | (db1, none) => (db1, .error .productNotFound)

end ProductService

namespace StoreService

/-- `StoreService.updateStore`: resolves the caller's own store and throws
'Tienda no encontrada' when they own none. -/
def updateStore (db : DB) (userId : Id) (updateData : storeRepository.StoreUpdate) :
    DB × Except Err Store :=
  match storeRepository.findByOwner db userId with
  | none => (db, .error .storeNotFound)
  | some store =>
    match storeRepository.update db store._id updateData with
    | (db1, some s') => (db1, .ok s')
    | (db1, none) => (db1, .error .storeNotFound)

end StoreService

/-- Mongoose's cast of a cart item's `product` field to an ObjectId when the
item is written back or fed to `findById`: a raw identifier casts to itself,
a populated document to its `_id`, a `null` reference to nothing. -/
def CartProd.castId : CartProd → Option Id
  | .raw id => some id
  | .pop (some p) => some p._id
  | .pop none => none

/-- The write-back shape of an in-memory cart item: mongoose casts the
`product` field to its ObjectId (the `getD 0` default is unreachable on the
service path, which validates existence first). -/
def CartItem.toStored (it : CartItem) : StoredCartItem :=
  { product := it.product.castId.getD 0, quantity := it.quantity, store := it.store }

/-- Evaluate `dbItem.product._id.toString()`: on a raw identifier string the
`._id` access yields `undefined` and `.toString()` throws a TypeError; on a
`null` populated reference the `._id` access itself throws. -/
def CartProd.idToString : CartProd → Except Err Id
  | .raw _ => .error .typeError
  | .pop none => .error .typeError
  | .pop (some p) => .ok p._id

namespace cartRepository

/-- `.populate('items.product')` on a stored item: replace the reference by
the referenced document, or `null` when it dangles. -/
def populateItem (db : DB) (s : StoredCartItem) : CartItem :=
  { product := .pop (productRepository.findById db s.product),
    quantity := s.quantity, store := s.store }

/-- `cartRepository.findByUser`: `Cart.findOne({user}).populate('items.product')`. -/
def findByUser (db : DB) (userId : Id) : Option Cart :=
  (db.carts.find? (fun c => c.user = userId)).map
    (fun c => { user := c.user, items := c.items.map (populateItem db) })

/-- `cartRepository.update`: `Cart.findOneAndUpdate({user}, {items}, {new:
true, upsert: true}).populate('items.product')`.  Writing casts each item's
product to its ObjectId; the service validates existence first, so the cast
cannot dangle on the service path (`getD 0` is unreachable there). -/
def update (db : DB) (userId : Id) (items : List CartItem) : DB × Cart :=
  let stored : List StoredCartItem := items.map CartItem.toStored
  let db1 : DB :=
    if (db.carts.find? (fun c => c.user = userId)).isSome then
      { db with carts := (db.carts.map
          (fun c => if c.user = userId then { c with items := stored } else c)) }
    else
      { db with carts := db.carts ++ [{ user := userId, items := stored }] }
  (db1, { user := userId, items := stored.map (populateItem db1) })

end cartRepository

namespace CartService

/-- `CartService.updateCart`: validate that every referenced product exists,
then replace the cart wholesale. -/
def updateCart (db : DB) (userId : Id) (items : List CartItem) :
    DB × Except Err Cart :=
  match items.find? (fun it =>
      ((it.product.castId.bind (productRepository.findById db)).isSome : Bool) = false) with
  | some bad => (db, .error (match bad.product.castId with
      | some id => .productNotFoundId id
      | none => .productNotFoundId 0))
  | none =>
    let (db1, cart) := cartRepository.update db userId items
    (db1, .ok cart)

/-- `dbItems.findIndex((dbItem) => dbItem.product._id.toString() ===
localItem.product)`: evaluates the predicate left to right, so it throws as
soon as it reaches an entry whose `product` is not a populated document,
and returns the index of the first populated match otherwise. -/
def findIndexJS (dbItems : List CartItem) (target : Id) : Except Err (Option Nat) :=
  match dbItems with
  | [] => .ok none
  | it :: rest =>
    match it.product.idToString with
    | .error e => .error e
    | .ok pid =>
      if pid = target then .ok (some 0)
      else (findIndexJS rest target).map (fun r => r.map (· + 1))

/-- Increment the quantity of the item at a given index
(`dbItems[existingItemIndex].quantity += localItem.quantity`). -/
def addQtyAt (items : List CartItem) (i : Nat) (q : Nat) : List CartItem :=
  match items, i with
  | [], _ => []
  | it :: rest, 0 => { it with quantity := it.quantity + q } :: rest
  | it :: rest, n + 1 => it :: addQtyAt rest n q

/-- The `for (const localItem of localItems)` merge loop of
`CartService.syncCart`. -/
def mergeLoop (dbItems : List CartItem) (localItems : List LocalItem) :
    Except Err (List CartItem) :=
  match localItems with
  | [] => .ok dbItems
  | l :: rest =>
    match findIndexJS dbItems l.product with
    | .error e => .error e
    | .ok (some i) => mergeLoop (addQtyAt dbItems i l.quantity) rest
    | .ok none =>
      mergeLoop (dbItems ++ [{ product := .raw l.product, quantity := l.quantity,
                               store := l.store }]) rest

/-- `let cart = await cartRepository.findByUser(userId); let dbItems = cart ?
cart.items : []` — the populated persisted items `syncCart` starts from. -/
def dbItemsOf (db : DB) (userId : Id) : List CartItem :=
  match cartRepository.findByUser db userId with
  | some cart => cart.items
  | none => []

/-- `CartService.syncCart`. -/
def syncCart (db : DB) (userId : Id) (localItems : List LocalItem) :
    DB × Except Err Cart :=
  match mergeLoop (dbItemsOf db userId) localItems with
  | .error e => (db, .error e)
  | .ok merged => updateCart db userId merged

end CartService

/-- The items of the cart document stored for a user ([] when none exists):
the persisted state observed between calls. -/
def storedCartItems (db : DB) (userId : Id) : List StoredCartItem :=
  ((db.carts.find? (fun c => c.user = userId)).map StoredCart.items).getD []

/-- Total quantity requested for one product across an order payload. -/
def requestedQty : List CreateItem → Id → Nat
  | [], _ => 0
  | i :: rest, pid => (if i.product = pid then i.quantity else 0) + requestedQty rest pid

/-- Σ line.price × line.quantity over a list of line items. -/
def lineSum (lines : List OrderItem) : Nat :=
  (lines.map (fun l => l.price * l.quantity)).sum

section SampleData

/-- A shipping address for concrete runs. -/
def sampleAddr : ShippingAddress :=
  { address := "Calle 1", city := "Bogotá", postalCode := "110111", country := "CO" }

/-- Catalog product: stock 50, price 100, store 7. -/
def widget : Product :=
  { _id := 1, name := "widget", description := "w", price := 100, stock := 50,
    store := 7, category := none }

/-- Catalog product: stock 1, price 30, store 7. -/
def gadget : Product :=
  { _id := 2, name := "gadget", description := "g", price := 30, stock := 1,
    store := 7, category := none }

/-- A database with the two catalog products and nothing else. -/
def sampleDB : DB :=
  { products := [widget, gadget], stores := [], orders := [], carts := [],
    nextOrderId := 100, nextProductId := 10 }

/-- `sampleDB` with a persisted cart for user 8 holding one unit of
product 1. -/
def cartDB : DB :=
  { sampleDB with carts := [{ user := 8, items := [{ product := 1, quantity := 1, store := 7 }] }] }

/-- An order as persisted: one widget line, status PENDING, empty history. -/
def sampleOrder : Order :=
  { _id := 100, user := 5,
    items := [{ product := 1, name := "widget", quantity := 2, price := 100, store := 7 }],
    total := 200, shippingAddress := sampleAddr, status := "PENDING",
    statusHistory := [],
    paymentResult := { id := "", status := "", update_time := "", email_address := "" } }

/-- `sampleDB` with `sampleOrder` persisted. -/
def orderDB : DB :=
  { sampleDB with orders := [sampleOrder], nextOrderId := 101 }

/-- A store owned by user 5, still PENDING. -/
def pendingStore : Store :=
  { _id := 40, name := "tienda", description := "t", owner := 5, status := "PENDING" }

/-- `sampleDB` with user 5 owning a PENDING store. -/
def pendingStoreDB : DB :=
  { sampleDB with stores := [pendingStore] }

/-- `sampleDB` with user 5 owning an APPROVED store. -/
def approvedStoreDB : DB :=
  { sampleDB with stores := [{ pendingStore with status := "APPROVED" }] }

/-- A product creation payload. -/
def sampleProductData : ProductData :=
  { name := "nuevo", description := "n", price := 5, stock := 3, category := none }

/-- The order produced by buying 2 widgets from `sampleDB`. -/
def widgetOrder : Order :=
  { _id := 100, user := 5,
    items := [{ product := 1, name := "widget", quantity := 2, price := 100, store := 7 }],
    total := 200, shippingAddress := sampleAddr, status := "PAID",
    statusHistory := [],
    paymentResult := { id := "mock_payment_0", status := "COMPLETED",
                       update_time := "0", email_address := "mock@example.com" } }

/-- `sampleDB` after the item loop has processed `[{product 1, qty 2}]`. -/
def preDB : DB :=
  { sampleDB with products := [{ widget with stock := 48 }, gadget] }

end SampleData

/-! ### Generic list lemmas -/

/-- `find?` commutes with mapping by a function that does not change the
predicate's verdict. -/
theorem find?_map_pred {α : Type} (g : α → α) (p : α → Bool)
    (hp : ∀ x, p (g x) = p x) (l : List α) :
    (l.map g).find? p = (l.find? p).map g := by
  rw [List.find?_map, show p ∘ g = p from funext hp]

/-! ### Product repository lemmas -/

/-- `applyProductUpdate` never touches `_id`. -/
theorem applyProductUpdate_id (p : Product) (u : ProductUpdate) :
    (applyProductUpdate p u)._id = p._id := rfl

/-- `productRepository.update` touches only the products collection. -/
theorem productRepository.update_frame (db : DB) (pid : Id) (u : ProductUpdate) :
    ((productRepository.update db pid u).1).orders = db.orders ∧
    ((productRepository.update db pid u).1).stores = db.stores ∧
    ((productRepository.update db pid u).1).carts = db.carts ∧
    ((productRepository.update db pid u).1).nextOrderId = db.nextOrderId := by
  unfold productRepository.update
  cases h : db.products.find? (fun p => p._id = pid) <;> exact ⟨rfl, rfl, rfl, rfl⟩

/-- `productRepository.delete` touches only the products collection. -/
theorem productRepository.delete_frame (db : DB) (pid : Id) :
    ((productRepository.delete db pid).1).orders = db.orders ∧
    ((productRepository.delete db pid).1).stores = db.stores ∧
    ((productRepository.delete db pid).1).carts = db.carts := by
  unfold productRepository.delete
  cases h : db.products.find? (fun p => p._id = pid) <;> exact ⟨rfl, rfl, rfl⟩

/-- Looking a product up after a `findByIdAndUpdate`: the same document,
with the update applied when it is the updated one. -/
theorem findById_update_eq (db : DB) (pid : Id) (u : ProductUpdate) (p0 : Product)
    (h : productRepository.findById db pid = some p0) (qid : Id) :
    productRepository.findById (productRepository.update db pid u).1 qid =
      (productRepository.findById db qid).map
        (fun p => if p._id = pid then applyProductUpdate p u else p) := by
  unfold productRepository.findById at h ⊢
  unfold productRepository.update
  rw [h]
  exact find?_map_pred _ _
    (fun x => by by_cases hx : x._id = pid <;> simp [hx, applyProductUpdate_id]) _

/-- A found product satisfies the lookup predicate. -/
theorem findById_id (db : DB) (pid : Id) (p : Product)
    (h : productRepository.findById db pid = some p) : p._id = pid := by
  simpa using List.find?_some h

/-! ### Step equations for the `createOrder` item loop -/

namespace OrderService

/-- Loop on an empty list: success with the accumulators. -/
theorem createOrderLoop_nil (db : DB) (total : Nat) (acc : List OrderItem) :
    createOrderLoop db [] total acc = (db, .ok (total, acc)) := rfl

/-- Loop step, missing product: throw, database as is. -/
theorem createOrderLoop_cons_none (db : DB) (item : CreateItem)
    (rest : List CreateItem) (total : Nat) (acc : List OrderItem)
    (hf : productRepository.findById db item.product = none) :
    createOrderLoop db (item :: rest) total acc =
      (db, .error (.productNotFoundId item.product)) := by
  unfold createOrderLoop; simp only [hf]

/-- Loop step, short stock: throw with the product's name, database as is. -/
theorem createOrderLoop_cons_short (db : DB) (item : CreateItem)
    (rest : List CreateItem) (total : Nat) (acc : List OrderItem) (p : Product)
    (hf : productRepository.findById db item.product = some p)
    (hs : p.stock < item.quantity) :
    createOrderLoop db (item :: rest) total acc =
      (db, .error (.insufficientStock p.name)) := by
  unfold createOrderLoop; simp only [hf, if_pos hs]

/-- Loop step, validation passes: persist the decrement, snapshot the line,
accumulate, continue. -/
theorem createOrderLoop_cons_go (db : DB) (item : CreateItem)
    (rest : List CreateItem) (total : Nat) (acc : List OrderItem) (p : Product)
    (hf : productRepository.findById db item.product = some p)
    (hs : ¬ p.stock < item.quantity) :
    createOrderLoop db (item :: rest) total acc =
      createOrderLoop
        (productRepository.update db p._id { stock := some (p.stock - item.quantity) }).1
        rest (total + p.price * item.quantity)
        (acc ++ [{ product := p._id, name := p.name, quantity := item.quantity,
                   price := p.price, store := p.store }]) := by
  conv_lhs => unfold createOrderLoop
  simp only [hf, if_neg hs]

/-- The item loop never touches orders, stores, carts, or the order-id
counter. -/
theorem createOrderLoop_frame (items : List CreateItem) :
    ∀ db total acc,
      ((createOrderLoop db items total acc).1).orders = db.orders ∧
      ((createOrderLoop db items total acc).1).stores = db.stores ∧
      ((createOrderLoop db items total acc).1).carts = db.carts ∧
      ((createOrderLoop db items total acc).1).nextOrderId = db.nextOrderId := by
  induction items with
  | nil => intro db total acc; exact ⟨rfl, rfl, rfl, rfl⟩
  | cons item rest ih =>
    intro db total acc
    cases hf : productRepository.findById db item.product with
    | none => rw [createOrderLoop_cons_none db item rest total acc hf]
              exact ⟨rfl, rfl, rfl, rfl⟩
    | some p =>
      by_cases hs : p.stock < item.quantity
      · rw [createOrderLoop_cons_short db item rest total acc p hf hs]
        exact ⟨rfl, rfl, rfl, rfl⟩
      · rw [createOrderLoop_cons_go db item rest total acc p hf hs]
        have hu := productRepository.update_frame db p._id
          { stock := some (p.stock - item.quantity) }
        have hi := ih (productRepository.update db p._id
          { stock := some (p.stock - item.quantity) }).1 (total + p.price * item.quantity)
          (acc ++ [{ product := p._id, name := p.name, quantity := item.quantity,
                     price := p.price, store := p.store }])
        exact ⟨hi.1.trans hu.1, hi.2.1.trans hu.2.1, hi.2.2.1.trans hu.2.2.1,
               hi.2.2.2.trans hu.2.2.2⟩

/-- On a successful run, every product's stock drops by exactly the total
quantity the payload requests for it (and nothing else about it changes). -/
theorem createOrderLoop_stock (items : List CreateItem) :
    ∀ db total acc db' r,
      createOrderLoop db items total acc = (db', .ok r) →
      ∀ pid, productRepository.findById db' pid =
        (productRepository.findById db pid).map
          (fun p => { p with stock := p.stock - requestedQty items pid }) := by
  induction items with
  | nil =>
    intro db total acc db' r h pid
    rw [createOrderLoop_nil] at h
    cases h
    cases hx : productRepository.findById db pid <;> simp [requestedQty]
  | cons item rest ih =>
    intro db total acc db' r h pid
    cases hf : productRepository.findById db item.product with
    | none =>
      rw [createOrderLoop_cons_none db item rest total acc hf] at h
      simp at h
    | some p =>
      by_cases hs : p.stock < item.quantity
      · rw [createOrderLoop_cons_short db item rest total acc p hf hs] at h
        simp at h
      · rw [createOrderLoop_cons_go db item rest total acc p hf hs] at h
        have hp : p._id = item.product := findById_id db item.product p hf
        have hstep := findById_update_eq db p._id
          { stock := some (p.stock - item.quantity) } p (by rw [hp]; exact hf) pid
        have hrec := ih _ _ _ _ _ h pid
        rw [hrec, hstep, Option.map_map]
        cases hq : productRepository.findById db pid with
        | none => rfl
        | some q =>
          have hqid : q._id = pid := findById_id db pid q hq
          simp only [Option.map_some', Function.comp]
          by_cases hcase : pid = item.product
          · have hqp : q = p := by
              rw [hcase] at hq
              exact Option.some.inj (hq.symm.trans hf)
            subst hqp
            have hqq : q._id = q._id := rfl
            simp [applyProductUpdate, requestedQty, hcase, Nat.sub_sub]
          · have hne : ¬ q._id = p._id := by rw [hqid, hp]; exact hcase
            have hne2 : ¬ item.product = pid := fun hcontra => hcase hcontra.symm
            simp [hne, hne2, requestedQty]

/-- On a successful run, the accumulated total is the line sum, and every
produced line snapshots the name, price and store of the product as found in
the database at entry. -/
theorem createOrderLoop_ok_spec (items : List CreateItem) :
    ∀ db total acc db' tot lines,
      createOrderLoop db items total acc = (db', .ok (tot, lines)) →
      tot + lineSum acc = total + lineSum lines ∧
      ∀ l ∈ lines, l ∈ acc ∨ ∃ p, productRepository.findById db l.product = some p ∧
        l.price = p.price ∧ l.name = p.name ∧ l.store = p.store := by
  induction items with
  | nil =>
    intro db total acc db' tot lines h
    rw [createOrderLoop_nil] at h
    injection h with h1 h2
    injection h2 with h3
    injection h3 with h4 h5
    subst h4; subst h5
    exact ⟨rfl, fun l hl => Or.inl hl⟩
  | cons item rest ih =>
    intro db total acc db' tot lines h
    cases hf : productRepository.findById db item.product with
    | none =>
      rw [createOrderLoop_cons_none db item rest total acc hf] at h
      simp at h
    | some p =>
      by_cases hs : p.stock < item.quantity
      · rw [createOrderLoop_cons_short db item rest total acc p hf hs] at h
        simp at h
      · rw [createOrderLoop_cons_go db item rest total acc p hf hs] at h
        have hp : p._id = item.product := findById_id db item.product p hf
        obtain ⟨hsum, hmem⟩ := ih _ _ _ _ _ _ h
        constructor
        · have hls : lineSum (acc ++
              [{ product := p._id, name := p.name, quantity := item.quantity,
                 price := p.price, store := p.store }]) =
              lineSum acc + p.price * item.quantity := by
            simp [lineSum]
          rw [hls] at hsum
          omega
        · intro l hl
          rcases hmem l hl with hacc | ⟨p1, hfind1, hpr, hnm, hst⟩
          · rcases List.mem_append.mp hacc with h1 | h1
            · exact Or.inl h1
            · have hleq : l = ⟨p._id, p.name, item.quantity, p.price, p.store⟩ :=
                List.mem_singleton.mp h1
              subst hleq
              refine Or.inr ⟨p, ?_, rfl, rfl, rfl⟩
              show productRepository.findById db p._id = some p
              rw [hp]; exact hf
          · have hstep := findById_update_eq db p._id
              { stock := some (p.stock - item.quantity) } p (by rw [hp]; exact hf)
              l.product
            rw [hstep] at hfind1
            cases hq : productRepository.findById db l.product with
            | none => rw [hq] at hfind1; simp at hfind1
            | some q =>
              rw [hq] at hfind1
              simp only [Option.map_some'] at hfind1
              have hq1 := (Option.some.inj hfind1).symm
              refine Or.inr ⟨q, rfl, ?_, ?_, ?_⟩
              · rw [hpr, hq1]
                by_cases hc : q._id = p._id <;> simp [hc, applyProductUpdate]
              · rw [hnm, hq1]
                by_cases hc : q._id = p._id <;> simp [hc, applyProductUpdate]
              · rw [hst, hq1]
                by_cases hc : q._id = p._id <;> simp [hc, applyProductUpdate]

/-- If some requested quantity exceeds its product's stock at entry, the
loop throws. -/
theorem createOrderLoop_insufficient_fails (items : List CreateItem) :
    ∀ db total acc,
      (∃ i ∈ items, ∃ p, productRepository.findById db i.product = some p ∧
        p.stock < i.quantity) →
      ∃ e, (createOrderLoop db items total acc).2 = .error e := by
  induction items with
  | nil => intro db total acc h; simp at h
  | cons item rest ih =>
    intro db total acc h
    cases hf : productRepository.findById db item.product with
    | none =>
      rw [createOrderLoop_cons_none db item rest total acc hf]
      exact ⟨_, rfl⟩
    | some p =>
      by_cases hs : p.stock < item.quantity
      · rw [createOrderLoop_cons_short db item rest total acc p hf hs]
        exact ⟨_, rfl⟩
      · rw [createOrderLoop_cons_go db item rest total acc p hf hs]
        obtain ⟨i, hi, pw, hpw, hlt⟩ := h
        rcases List.mem_cons.mp hi with hii | hii
        · subst hii
          rw [hf] at hpw
          cases Option.some.inj hpw
          exact absurd hlt hs
        · apply ih
          have hp : p._id = item.product := findById_id db item.product p hf
          have hstep := findById_update_eq db p._id
            { stock := some (p.stock - item.quantity) } p (by rw [hp]; exact hf)
            i.product
          refine ⟨i, hii, ?_⟩
          rw [hstep, hpw]
          simp only [Option.map_some']
          by_cases hc : pw._id = p._id
          · have hwid : pw._id = i.product := findById_id db i.product pw hpw
            have hip : i.product = item.product := by rw [← hwid, hc, hp]
            have hwp : pw = p := by
              rw [hip] at hpw
              exact Option.some.inj (hpw.symm.trans hf)
            subst hwp
            refine ⟨_, rfl, ?_⟩
            simp [applyProductUpdate]
            omega
          · exact ⟨_, rfl, by simp [hc]; exact hlt⟩

/-- When every requested product exists, a throw caused by short stock names
a catalog product. -/
theorem createOrderLoop_insufficient_name (items : List CreateItem) :
    ∀ db total acc,
      (∀ i ∈ items, (productRepository.findById db i.product).isSome) →
      (∃ i ∈ items, ∃ p, productRepository.findById db i.product = some p ∧
        p.stock < i.quantity) →
      ∃ pid p, productRepository.findById db pid = some p ∧
        (createOrderLoop db items total acc).2 = .error (.insufficientStock p.name) := by
  induction items with
  | nil => intro db total acc _ h; simp at h
  | cons item rest ih =>
    intro db total acc hall h
    cases hf : productRepository.findById db item.product with
    | none =>
      have := hall item (List.mem_cons_self item rest)
      rw [hf] at this
      simp at this
    | some p =>
      by_cases hs : p.stock < item.quantity
      · rw [createOrderLoop_cons_short db item rest total acc p hf hs]
        exact ⟨item.product, p, hf, rfl⟩
      · rw [createOrderLoop_cons_go db item rest total acc p hf hs]
        have hp : p._id = item.product := findById_id db item.product p hf
        have hstep := fun qid => findById_update_eq db p._id
          { stock := some (p.stock - item.quantity) } p (by rw [hp]; exact hf) qid
        obtain ⟨i, hi, pw, hpw, hlt⟩ := h
        rcases List.mem_cons.mp hi with hii | hii
        · subst hii
          rw [hf] at hpw
          cases Option.some.inj hpw
          exact absurd hlt hs
        · obtain ⟨pid, pr, hfr, herr⟩ := ih _ _ _
            (fun j hj => by rw [hstep j.product]
                            have := hall j (List.mem_cons_of_mem item hj)
                            cases hjf : productRepository.findById db j.product with
                            | none => rw [hjf] at this; simp at this
                            | some pj => simp)
            (by refine ⟨i, hii, ?_⟩
                rw [hstep i.product, hpw]
                simp only [Option.map_some']
                by_cases hc : pw._id = p._id
                · have hwid : pw._id = i.product := findById_id db i.product pw hpw
                  have hip : i.product = item.product := by rw [← hwid, hc, hp]
                  have hwp : pw = p := by
                    rw [hip] at hpw
                    exact Option.some.inj (hpw.symm.trans hf)
                  subst hwp
                  refine ⟨_, rfl, ?_⟩
                  simp [applyProductUpdate]
                  omega
                · exact ⟨_, rfl, by simp [hc]; exact hlt⟩)
          rw [hstep pid] at hfr
          cases hqf : productRepository.findById db pid with
          | none => rw [hqf] at hfr; simp at hfr
          | some q =>
            rw [hqf] at hfr
            simp only [Option.map_some'] at hfr
            have hq1 := (Option.some.inj hfr).symm
            refine ⟨pid, q, hqf, ?_⟩
            rw [herr]
            have hname : pr.name = q.name := by
              rw [hq1]
              by_cases hc : q._id = p._id <;> simp [hc, applyProductUpdate]
            rw [hname]

/-- `createOrder` when the loop throws: same database, same error. -/
theorem createOrder_of_loop_error (db : DB) (u : Id) (items : List CreateItem)
    (addr : ShippingAddress) (now : Nat) (db1 : DB) (e : Err)
    (hne : ¬ items = []) (h : createOrderLoop db items 0 [] = (db1, .error e)) :
    createOrder db u items addr now = (db1, .error e) := by
  unfold createOrder
  rw [if_neg hne, h]

/-- `createOrder` when the loop succeeds: persist the assembled order. -/
theorem createOrder_of_loop_ok (db : DB) (u : Id) (items : List CreateItem)
    (addr : ShippingAddress) (now : Nat) (db1 : DB) (total : Nat)
    (lines : List OrderItem)
    (hne : ¬ items = []) (h : createOrderLoop db items 0 [] = (db1, .ok (total, lines))) :
    createOrder db u items addr now =
      ({ db1 with
          orders := (db1.orders ++
            [{ _id := db1.nextOrderId, user := u, items := lines, total := total,
               shippingAddress := addr, status := "PAID", statusHistory := [],
               paymentResult := { id := "mock_payment_" ++ toString now,
                                  status := "COMPLETED", update_time := toString now,
                                  email_address := "mock@example.com" } }]),
          nextOrderId := db1.nextOrderId + 1 },
       .ok { _id := db1.nextOrderId, user := u, items := lines, total := total,
             shippingAddress := addr, status := "PAID", statusHistory := [],
             paymentResult := { id := "mock_payment_" ++ toString now,
                                status := "COMPLETED", update_time := toString now,
                                email_address := "mock@example.com" } }) := by
  unfold createOrder
  rw [if_neg hne, h]
  rfl

/-- Splitting the loop at a list append. -/
theorem createOrderLoop_append (xs : List CreateItem) :
    ∀ ys db total acc,
      createOrderLoop db (xs ++ ys) total acc =
        match createOrderLoop db xs total acc with
        | (db1, .ok (t1, acc1)) => createOrderLoop db1 ys t1 acc1
        | (db1, .error e) => (db1, .error e) := by
  induction xs with
  | nil => intro ys db total acc; rfl
  | cons item rest ih =>
    intro ys db total acc
    cases hf : productRepository.findById db item.product with
    | none =>
      rw [show (item :: rest) ++ ys = item :: (rest ++ ys) from rfl,
          createOrderLoop_cons_none db item (rest ++ ys) total acc hf,
          createOrderLoop_cons_none db item rest total acc hf]
    | some p =>
      by_cases hs : p.stock < item.quantity
      · rw [show (item :: rest) ++ ys = item :: (rest ++ ys) from rfl,
            createOrderLoop_cons_short db item (rest ++ ys) total acc p hf hs,
            createOrderLoop_cons_short db item rest total acc p hf hs]
      · rw [show (item :: rest) ++ ys = item :: (rest ++ ys) from rfl,
            createOrderLoop_cons_go db item (rest ++ ys) total acc p hf hs,
            createOrderLoop_cons_go db item rest total acc p hf hs]
        exact ih ys _ _ _

end OrderService

/-! ### Claim C1 -/

/-- C1: every successful order creation returns and persists an order whose
status is "PAID" and whose total is Σ line.price × line.quantity, each
line's price and name being the catalog product's price and name read at
creation time. -/
theorem createOrder_total_status_spec (db : DB) (userId : Id)
    (items : List CreateItem) (addr : ShippingAddress) (now : Nat)
    (db' : DB) (order : Order)
    (h : OrderService.createOrder db userId items addr now = (db', .ok order)) :
    order.status = "PAID" ∧
    order.total = lineSum order.items ∧
    (∀ l ∈ order.items, ∃ p, productRepository.findById db l.product = some p ∧
      l.price = p.price ∧ l.name = p.name) ∧
    order ∈ db'.orders := by
  by_cases hne : items = []
  · unfold OrderService.createOrder at h
    rw [if_pos hne] at h
    simp at h
  · cases hloop : OrderService.createOrderLoop db items 0 [] with
    | mk db1 r =>
      cases r with
      | error e =>
        rw [OrderService.createOrder_of_loop_error db userId items addr now
          db1 e hne hloop] at h
        simp at h
      | ok tl =>
        obtain ⟨total, lines⟩ := tl
        rw [OrderService.createOrder_of_loop_ok db userId items addr now
          db1 total lines hne hloop] at h
        injection h with h1 h2
        injection h2 with h3
        obtain ⟨hsum, hmem⟩ :=
          OrderService.createOrderLoop_ok_spec items db 0 [] db1 total lines hloop
        subst h3
        refine ⟨rfl, ?_, ?_, ?_⟩
        · show total = lineSum lines
          simpa [lineSum] using hsum
        · intro l hl
          rcases hmem l hl with hin | ⟨p, hfp, hpr, hnm, _⟩
          · simp at hin
          · exact ⟨p, hfp, hpr, hnm⟩
        · rw [← h1]
          simp

/-- C1 witness: buying 2 widgets (price 100, stock 50) from `sampleDB`
yields the persisted PAID order with total 200. -/
theorem createOrder_total_status_spec_witness :
    widgetOrder.status = "PAID" ∧
    widgetOrder.total = lineSum widgetOrder.items ∧
    (∀ l ∈ widgetOrder.items, ∃ p,
      productRepository.findById sampleDB l.product = some p ∧
      l.price = p.price ∧ l.name = p.name) ∧
    widgetOrder ∈ ((OrderService.createOrder sampleDB 5 [⟨1, 2⟩] sampleAddr 0).1).orders :=
  createOrder_total_status_spec sampleDB 5 [⟨1, 2⟩] sampleAddr 0 _ widgetOrder rfl

/-! ### Claim C2 -/

/-- C2 counterexample: the claim "post-order stock equals prior stock minus
that item's quantity, for every item" fails when one product appears in two
line items: ordering quantities 2 and 3 of product 1 (prior stock 50)
succeeds and leaves stock 45, not 50 − 2 = 48 as the claim states for the
first item. -/
theorem createOrder_stock_claim_counterexample :
    (OrderService.createOrder sampleDB 5 [⟨1, 2⟩, ⟨1, 3⟩] sampleAddr 0).2.isOk = true ∧
    productRepository.findById sampleDB 1 = some widget ∧ widget.stock = 50 ∧
    productRepository.findById
      (OrderService.createOrder sampleDB 5 [⟨1, 2⟩, ⟨1, 3⟩] sampleAddr 0).1 1 =
      some { widget with stock := 45 } ∧
    ¬ (45 = 50 - 2) := by decide

/-- C2 amended: after a successful order creation, each product's stock has
dropped by the total quantity requested for it across all line items (which
is s − q exactly when the product appears in a single item), and no other
product field changes. -/
theorem createOrder_stock_decrement_total (db : DB) (userId : Id)
    (items : List CreateItem) (addr : ShippingAddress) (now : Nat)
    (db' : DB) (order : Order)
    (h : OrderService.createOrder db userId items addr now = (db', .ok order)) :
    ∀ pid, productRepository.findById db' pid =
      (productRepository.findById db pid).map
        (fun p => { p with stock := p.stock - requestedQty items pid }) := by
  by_cases hne : items = []
  · unfold OrderService.createOrder at h
    rw [if_pos hne] at h
    simp at h
  · cases hloop : OrderService.createOrderLoop db items 0 [] with
    | mk db1 r =>
      cases r with
      | error e =>
        rw [OrderService.createOrder_of_loop_error db userId items addr now
          db1 e hne hloop] at h
        simp at h
      | ok tl =>
        obtain ⟨total, lines⟩ := tl
        rw [OrderService.createOrder_of_loop_ok db userId items addr now
          db1 total lines hne hloop] at h
        injection h with h1 h2
        intro pid
        have hstock :=
          OrderService.createOrderLoop_stock items db 0 [] db1 (total, lines) hloop pid
        rw [← h1]
        exact hstock

/-- C2 witness: one line of quantity 2 against product 1 with stock 50
leaves stock 48 = 50 − 2. -/
theorem createOrder_stock_decrement_total_witness :
    productRepository.findById
        (OrderService.createOrder sampleDB 5 [⟨1, 2⟩] sampleAddr 0).1 1 =
      (productRepository.findById sampleDB 1).map
        (fun p => { p with stock := p.stock - requestedQty [⟨1, 2⟩] 1 }) :=
  createOrder_stock_decrement_total sampleDB 5 [⟨1, 2⟩] sampleAddr 0 _ widgetOrder
    rfl 1

/-! ### Claim C3 -/

/-- C3 counterexample: with gadget (product 2) having stock 1 < 5, the
request `[{product 99, qty 1}, {product 2, qty 5}]` satisfies the claim's
hypothesis (some item's quantity exceeds its product's stock), yet creation
fails with `Producto no encontrado: 99`, not with `InsufficientStock`. -/
theorem createOrder_insufficient_claim_counterexample :
    productRepository.findById sampleDB 2 = some gadget ∧
    gadget.stock < 5 ∧
    productRepository.findById sampleDB 99 = none ∧
    (OrderService.createOrder sampleDB 5 [⟨99, 1⟩, ⟨2, 5⟩] sampleAddr 0).2 =
      .error (.productNotFoundId 99) ∧
    ¬ (Err.productNotFoundId 99 = .insufficientStock gadget.name) ∧
    ((OrderService.createOrder sampleDB 5 [⟨99, 1⟩, ⟨2, 5⟩] sampleAddr 0).1).orders =
      sampleDB.orders := by decide

/-- C3 amended: if some item's quantity exceeds its product's stock at
request time, order creation fails and persists no Order; the error is
`InsufficientStock`, carrying the display name of a catalog product, under
the additional premise that every requested product exists (otherwise an
earlier missing product yields `NotFound` instead). -/
theorem createOrder_insufficient_rejection (db : DB) (userId : Id)
    (items : List CreateItem) (addr : ShippingAddress) (now : Nat)
    (hbad : ∃ i ∈ items, ∃ p, productRepository.findById db i.product = some p ∧
      p.stock < i.quantity) :
    (∃ e, (OrderService.createOrder db userId items addr now).2 = .error e) ∧
    ((OrderService.createOrder db userId items addr now).1).orders = db.orders ∧
    ((∀ i ∈ items, (productRepository.findById db i.product).isSome) →
      ∃ pid p, productRepository.findById db pid = some p ∧
        (OrderService.createOrder db userId items addr now).2 =
          .error (.insufficientStock p.name) ∧
        (Err.insufficientStock p.name).message =
          "Stock insuficiente para el producto: " ++ p.name) := by
  have hne : ¬ items = [] := by
    obtain ⟨i, hi, _⟩ := hbad
    exact List.ne_nil_of_mem hi
  cases hloop : OrderService.createOrderLoop db items 0 [] with
  | mk db1 r =>
    have hframe := OrderService.createOrderLoop_frame items db 0 []
    rw [hloop] at hframe
    cases r with
    | ok tl =>
      obtain ⟨e0, he0⟩ := OrderService.createOrderLoop_insufficient_fails items db 0 [] hbad
      rw [hloop] at he0
      simp at he0
    | error e =>
      rw [OrderService.createOrder_of_loop_error db userId items addr now db1 e hne hloop]
      refine ⟨⟨e, rfl⟩, hframe.1, ?_⟩
      intro hall
      obtain ⟨pid, p, hfp, herr⟩ :=
        OrderService.createOrderLoop_insufficient_name items db 0 [] hall hbad
      rw [hloop] at herr
      simp only at herr
      refine ⟨pid, p, hfp, ?_, rfl⟩
      simpa using herr

/-- C3 witness: requesting 5 gadgets with stock 1 is rejected with
`Stock insuficiente para el producto: gadget` and persists nothing. -/
theorem createOrder_insufficient_rejection_witness :
    (∃ e, (OrderService.createOrder sampleDB 5 [⟨2, 5⟩] sampleAddr 0).2 = .error e) ∧
    ((OrderService.createOrder sampleDB 5 [⟨2, 5⟩] sampleAddr 0).1).orders =
      sampleDB.orders ∧
    (∃ pid p, productRepository.findById sampleDB pid = some p ∧
      (OrderService.createOrder sampleDB 5 [⟨2, 5⟩] sampleAddr 0).2 =
        .error (.insufficientStock p.name) ∧
      (Err.insufficientStock p.name).message =
        "Stock insuficiente para el producto: " ++ p.name) := by
  have h := createOrder_insufficient_rejection sampleDB 5 [⟨2, 5⟩] sampleAddr 0
    (by decide)
  exact ⟨h.1, h.2.1, h.2.2 (by decide)⟩

/-! ### Claim C4 -/

/-- C4: when a multi-item order fails on a later item (missing product or
short stock) after a nonempty prefix of items validated, creation returns
the database exactly as mutated by the prefix — every prefix decrement is
still in place — while no Order document is persisted. -/
theorem createOrder_partial_decrement_persists (db db1 : DB) (userId : Id)
    (pre : List CreateItem) (bad : CreateItem) (rest : List CreateItem)
    (addr : ShippingAddress) (now : Nat) (t1 : Nat) (acc1 : List OrderItem)
    (_hne : pre ≠ [])
    (hpre : OrderService.createOrderLoop db pre 0 [] = (db1, .ok (t1, acc1)))
    (hfail : productRepository.findById db1 bad.product = none ∨
      ∃ p, productRepository.findById db1 bad.product = some p ∧
        p.stock < bad.quantity) :
    (∃ e, OrderService.createOrder db userId (pre ++ bad :: rest) addr now =
      (db1, .error e)) ∧
    db1.orders = db.orders ∧
    ∀ pid, productRepository.findById db1 pid =
      (productRepository.findById db pid).map
        (fun p => { p with stock := p.stock - requestedQty pre pid }) := by
  have hne2 : ¬ (pre ++ bad :: rest) = [] := by simp
  have happ := OrderService.createOrderLoop_append pre (bad :: rest) db 0 []
  rw [hpre] at happ
  simp only at happ
  have hframe := OrderService.createOrderLoop_frame pre db 0 []
  rw [hpre] at hframe
  refine ⟨?_, hframe.1, ?_⟩
  · rcases hfail with hnone | ⟨p, hp, hlt⟩
    · rw [OrderService.createOrderLoop_cons_none db1 bad rest t1 acc1 hnone] at happ
      exact ⟨_, OrderService.createOrder_of_loop_error db userId _ addr now db1 _
        hne2 happ⟩
    · rw [OrderService.createOrderLoop_cons_short db1 bad rest t1 acc1 p hp hlt] at happ
      exact ⟨_, OrderService.createOrder_of_loop_error db userId _ addr now db1 _
        hne2 happ⟩
  · exact OrderService.createOrderLoop_stock pre db 0 [] db1 (t1, acc1) hpre

/-- C4 witness: ordering 2 widgets then 5 gadgets (gadget stock is 1) fails,
persists no order, and the widget decrement to 48 remains in place. -/
theorem createOrder_partial_decrement_persists_witness :
    (∃ e, OrderService.createOrder sampleDB 5 ([⟨1, 2⟩] ++ ⟨2, 5⟩ :: []) sampleAddr 0 =
      (preDB, .error e)) ∧
    preDB.orders = sampleDB.orders ∧
    productRepository.findById preDB 1 =
      (productRepository.findById sampleDB 1).map
        (fun p => { p with stock := p.stock - requestedQty [⟨1, 2⟩] 1 }) := by
  have h := createOrder_partial_decrement_persists sampleDB preDB 5 [⟨1, 2⟩] ⟨2, 5⟩ []
    sampleAddr 0 200
    [{ product := 1, name := "widget", quantity := 2, price := 100, store := 7 }]
    (by decide) (by decide) (by decide)
  exact ⟨h.1, h.2.1, h.2.2 1⟩

/-! ### Claim C5 -/

/-- C5 counterexample: user 5 owns no store in `sampleDB`, yet updating
product 1 fails with `No autorizado para actualizar este producto`
(NotAuthorized), not with NoStore; and the direct store update fails with
`Tienda no encontrada`, also not NoStore. -/
theorem ownership_nostore_counterexample :
    storeRepository.findByOwner sampleDB 5 = none ∧
    productRepository.findById sampleDB 1 = some widget ∧
    ProductService.updateProduct sampleDB 5 1 {} =
      (sampleDB, .error .notAuthorizedUpdate) ∧
    ¬ (Err.notAuthorizedUpdate = Err.noStore) ∧
    ¬ (Err.notAuthorizedUpdate.message = Err.noStore.message) ∧
    StoreService.updateStore sampleDB 5 {} = (sampleDB, .error .storeNotFound) ∧
    ¬ (Err.storeNotFound = Err.noStore) := by decide

/-- C5 amended: product update and delete fail with NotAuthorized — both
when the acting user owns no store and when the owned store does not match
the product's store reference — and the direct store update fails with a
store-not-found error (`Tienda no encontrada`) when the user owns no store
(it has no NotAuthorized case, the store being resolved by ownership); in
every such case the database is left untouched. -/
theorem ownership_guard_failure_modes (db : DB) (userId productId : Id)
    (updP : ProductUpdate) (updS : storeRepository.StoreUpdate) :
    (∀ product, productRepository.findById db productId = some product →
      (storeRepository.findByOwner db userId = none ∨
        ∃ s, storeRepository.findByOwner db userId = some s ∧ s._id ≠ product.store) →
      ProductService.updateProduct db userId productId updP =
        (db, .error .notAuthorizedUpdate)) ∧
    (∀ product, productRepository.findById db productId = some product →
      (storeRepository.findByOwner db userId = none ∨
        ∃ s, storeRepository.findByOwner db userId = some s ∧ s._id ≠ product.store) →
      ProductService.deleteProduct db userId productId =
        (db, .error .notAuthorizedDelete)) ∧
    (storeRepository.findByOwner db userId = none →
      StoreService.updateStore db userId updS = (db, .error .storeNotFound)) := by
  refine ⟨?_, ?_, ?_⟩
  · intro product hfp hbad
    unfold ProductService.updateProduct
    rcases hbad with hnone | ⟨s, hs, hne⟩
    · simp only [hfp, hnone]
    · simp only [hfp, hs]
      rw [if_pos hne]
  · intro product hfp hbad
    unfold ProductService.deleteProduct
    rcases hbad with hnone | ⟨s, hs, hne⟩
    · simp only [hfp, hnone]
    · simp only [hfp, hs]
      rw [if_pos hne]
  · intro hnone
    unfold StoreService.updateStore
    simp only [hnone]

/-- C5 witness: concrete runs of all three guarded operations for a user
with no store. -/
theorem ownership_guard_failure_modes_witness :
    ProductService.updateProduct sampleDB 5 1 {} =
      (sampleDB, .error .notAuthorizedUpdate) ∧
    ProductService.deleteProduct sampleDB 5 1 =
      (sampleDB, .error .notAuthorizedDelete) ∧
    StoreService.updateStore sampleDB 5 {} = (sampleDB, .error .storeNotFound) := by
  have h := ownership_guard_failure_modes sampleDB 5 1 {} {}
  exact ⟨h.1 widget (by decide) (Or.inl (by decide)),
         h.2.1 widget (by decide) (Or.inl (by decide)),
         h.2.2 (by decide)⟩

/-! ### Claim C6 -/

/-- C6: product creation fails with NoStore when the user owns no store,
fails with StoreNotApproved when the owned store's status is not APPROVED,
and otherwise persists the product under that store. -/
theorem createProduct_approval_gate (db : DB) (userId : Id) (d : ProductData) :
    (storeRepository.findByOwner db userId = none →
      ProductService.createProduct db userId d = (db, .error .noStore)) ∧
    (∀ s, storeRepository.findByOwner db userId = some s → s.status ≠ "APPROVED" →
      ProductService.createProduct db userId d = (db, .error .storeNotApproved)) ∧
    (∀ s, storeRepository.findByOwner db userId = some s → s.status = "APPROVED" →
      ∃ p db', ProductService.createProduct db userId d = (db', .ok p) ∧
        p.store = s._id ∧ db'.products = db.products ++ [p]) := by
  refine ⟨?_, ?_, ?_⟩
  · intro hnone
    unfold ProductService.createProduct
    simp only [hnone]
  · intro s hs hnap
    unfold ProductService.createProduct
    simp only [hs]
    rw [if_pos hnap]
  · intro s hs hap
    unfold ProductService.createProduct
    simp only [hs]
    rw [if_neg (by simp [hap])]
    exact ⟨_, _, rfl, rfl, rfl⟩

/-- C6 witness: no store → NoStore; PENDING store → StoreNotApproved;
APPROVED store → the product is persisted under store 40. -/
theorem createProduct_approval_gate_witness :
    ProductService.createProduct sampleDB 5 sampleProductData =
      (sampleDB, .error .noStore) ∧
    ProductService.createProduct pendingStoreDB 5 sampleProductData =
      (pendingStoreDB, .error .storeNotApproved) ∧
    (∃ p db', ProductService.createProduct approvedStoreDB 5 sampleProductData =
      (db', .ok p) ∧ p.store = 40 ∧ db'.products = approvedStoreDB.products ++ [p]) := by
  refine ⟨?_, ?_, ?_⟩
  · exact (createProduct_approval_gate sampleDB 5 sampleProductData).1 (by decide)
  · exact (createProduct_approval_gate pendingStoreDB 5 sampleProductData).2.1
      pendingStore (by decide) (by decide)
  · exact (createProduct_approval_gate approvedStoreDB 5 sampleProductData).2.2
      { pendingStore with status := "APPROVED" } (by decide) rfl

/-! ### Order status update lemmas and claims C7, C9 -/

/-- Writing an order back (`order.save()`) makes the subsequent lookup of
its id return exactly the written document. -/
theorem findById_saveOrder (db : DB) (oid : Id) (o o' : Order)
    (h : orderRepository.findById db oid = some o) (hid : o'._id = o._id) :
    orderRepository.findById (db.saveOrder o') oid = some o' := by
  have hoid : o._id = oid := by simpa using List.find?_some h
  show (db.orders.map (fun q => if q._id = o'._id then o' else q)).find?
      (fun q => q._id = oid) = some o'
  rw [find?_map_pred _ _
    (fun x => by by_cases hx : x._id = oid <;> simp [hx, hid, hoid]) _]
  rw [show db.orders.find? (fun q => decide (q._id = oid)) = some o from h]
  simp [hid, hoid]

/-- C7: updating the status of an existing order appends exactly one history
entry `{status, timestamp: now, updatedBy: actingUser}`, sets the current
status, persists and returns the updated order; it fails with NotFound when
no order matches; and it is not idempotent — a second call with the same
status appends a second entry, so the history grows by one per call. -/
theorem updateOrderStatus_spec (db : DB) (oid : Id) (st : String) (uid : Id)
    (now now2 : Nat) :
    (orderRepository.findById db oid = none →
      OrderService.updateOrderStatus db oid st uid now =
        (db, .error .orderNotFound)) ∧
    (∀ o, orderRepository.findById db oid = some o →
      OrderService.updateOrderStatus db oid st uid now =
        (db.saveOrder (o.withStatus st uid now), .ok (o.withStatus st uid now)) ∧
      (o.withStatus st uid now).status = st ∧
      (o.withStatus st uid now).statusHistory =
        o.statusHistory ++ [{ status := st, updatedBy := uid, timestamp := now }] ∧
      (o.withStatus st uid now).statusHistory.length =
        o.statusHistory.length + 1 ∧
      orderRepository.findById (db.saveOrder (o.withStatus st uid now)) oid =
        some (o.withStatus st uid now) ∧
      (OrderService.updateOrderStatus (db.saveOrder (o.withStatus st uid now))
          oid st uid now2).2 =
        .ok ((o.withStatus st uid now).withStatus st uid now2) ∧
      ((o.withStatus st uid now).withStatus st uid now2).statusHistory =
        o.statusHistory ++
          [{ status := st, updatedBy := uid, timestamp := now },
           { status := st, updatedBy := uid, timestamp := now2 }] ∧
      ((o.withStatus st uid now).withStatus st uid now2).statusHistory.length =
        o.statusHistory.length + 2) := by
  constructor
  · intro hnone
    unfold OrderService.updateOrderStatus
    simp only [hnone]
  · intro o ho
    have hsave : orderRepository.findById (db.saveOrder (o.withStatus st uid now)) oid =
        some (o.withStatus st uid now) :=
      findById_saveOrder db oid o (o.withStatus st uid now) ho rfl
    refine ⟨?_, rfl, rfl, by simp [Order.withStatus], hsave, ?_, ?_, ?_⟩
    · unfold OrderService.updateOrderStatus
      simp only [ho]
      rfl
    · unfold OrderService.updateOrderStatus
      simp only [hsave]
      rfl
    · simp [Order.withStatus]
    · simp [Order.withStatus]

/-- C7 witness: shipping `sampleOrder` (status PENDING, empty history)
twice from `orderDB`. -/
theorem updateOrderStatus_spec_witness :
    OrderService.updateOrderStatus orderDB 100 "SHIPPED" 3 7 =
      (orderDB.saveOrder (sampleOrder.withStatus "SHIPPED" 3 7),
       .ok (sampleOrder.withStatus "SHIPPED" 3 7)) ∧
    (sampleOrder.withStatus "SHIPPED" 3 7).status = "SHIPPED" ∧
    (sampleOrder.withStatus "SHIPPED" 3 7).statusHistory =
      sampleOrder.statusHistory ++
        [{ status := "SHIPPED", updatedBy := 3, timestamp := 7 }] ∧
    (sampleOrder.withStatus "SHIPPED" 3 7).statusHistory.length =
      sampleOrder.statusHistory.length + 1 ∧
    orderRepository.findById (orderDB.saveOrder (sampleOrder.withStatus "SHIPPED" 3 7))
        100 = some (sampleOrder.withStatus "SHIPPED" 3 7) ∧
    (OrderService.updateOrderStatus
        (orderDB.saveOrder (sampleOrder.withStatus "SHIPPED" 3 7)) 100 "SHIPPED" 3 9).2 =
      .ok ((sampleOrder.withStatus "SHIPPED" 3 7).withStatus "SHIPPED" 3 9) ∧
    ((sampleOrder.withStatus "SHIPPED" 3 7).withStatus "SHIPPED" 3 9).statusHistory =
      sampleOrder.statusHistory ++
        [{ status := "SHIPPED", updatedBy := 3, timestamp := 7 },
         { status := "SHIPPED", updatedBy := 3, timestamp := 9 }] ∧
    ((sampleOrder.withStatus "SHIPPED" 3 7).withStatus "SHIPPED" 3 9).statusHistory.length =
      sampleOrder.statusHistory.length + 2 :=
  (updateOrderStatus_spec orderDB 100 "SHIPPED" 3 7 9).2 sampleOrder (by decide)

/-! ### Claim C9 -/

/-- C9: after creation an order's line items, total, user and shipping
address are never changed — the status tracker rewrites only status and
statusHistory (all other fields carried over from the fetched order), and
catalog edits (product update or delete) leave the orders collection, hence
every stored snapshot, untouched. -/
theorem order_immutable_after_creation :
    (∀ db oid st uid now db' o',
      OrderService.updateOrderStatus db oid st uid now = (db', .ok o') →
      ∃ o, orderRepository.findById db oid = some o ∧
        o' = o.withStatus st uid now ∧
        o'.items = o.items ∧ o'.total = o.total ∧ o'.user = o.user ∧
        o'.shippingAddress = o.shippingAddress ∧
        db'.products = db.products ∧
        db'.orders = db.orders.map (fun q => if q._id = o'._id then o' else q)) ∧
    (∀ db pid u, ((productRepository.update db pid u).1).orders = db.orders) ∧
    (∀ db pid, ((productRepository.delete db pid).1).orders = db.orders) := by
  refine ⟨?_, ?_, ?_⟩
  · intro db oid st uid now db' o' h
    unfold OrderService.updateOrderStatus at h
    cases hf : orderRepository.findById db oid with
    | none => rw [hf] at h; simp at h
    | some o =>
      rw [hf] at h
      simp only at h
      injection h with h1 h2
      injection h2 with h3
      subst h3
      subst h1
      exact ⟨o, rfl, rfl, rfl, rfl, rfl, rfl, rfl, rfl⟩
  · exact fun db pid u => (productRepository.update_frame db pid u).1
  · exact fun db pid => (productRepository.delete_frame db pid).1

/-- C9 witness: a concrete status update on `orderDB` plus concrete catalog
edits on `sampleDB`. -/
theorem order_immutable_after_creation_witness :
    (∃ o, orderRepository.findById orderDB 100 = some o ∧
      sampleOrder.withStatus "SHIPPED" 3 7 = o.withStatus "SHIPPED" 3 7 ∧
      (sampleOrder.withStatus "SHIPPED" 3 7).items = o.items ∧
      (sampleOrder.withStatus "SHIPPED" 3 7).total = o.total ∧
      (sampleOrder.withStatus "SHIPPED" 3 7).user = o.user ∧
      (sampleOrder.withStatus "SHIPPED" 3 7).shippingAddress = o.shippingAddress ∧
      ((orderDB.saveOrder (sampleOrder.withStatus "SHIPPED" 3 7))).products =
        orderDB.products ∧
      ((orderDB.saveOrder (sampleOrder.withStatus "SHIPPED" 3 7))).orders =
        orderDB.orders.map
          (fun q => if q._id = (sampleOrder.withStatus "SHIPPED" 3 7)._id then
            sampleOrder.withStatus "SHIPPED" 3 7 else q)) ∧
    ((productRepository.update sampleDB 1 {}).1).orders = sampleDB.orders ∧
    ((productRepository.delete sampleDB 1).1).orders = sampleDB.orders :=
  ⟨order_immutable_after_creation.1 orderDB 100 "SHIPPED" 3 7
      (orderDB.saveOrder (sampleOrder.withStatus "SHIPPED" 3 7))
      (sampleOrder.withStatus "SHIPPED" 3 7) rfl,
   order_immutable_after_creation.2.1 sampleDB 1 {},
   order_immutable_after_creation.2.2 sampleDB 1⟩

/-! ### Cart lemmas -/

/-- `syncCart`'s starting items are the stored items, populated. -/
theorem dbItemsOf_eq (db : DB) (u : Id) :
    CartService.dbItemsOf db u =
      (storedCartItems db u).map (cartRepository.populateItem db) := by
  unfold CartService.dbItemsOf cartRepository.findByUser storedCartItems
  cases hc : db.carts.find? (fun c => c.user = u) <;> simp

/-- A cart write touches no other collection. -/
theorem cartRepository.update_only_carts (db : DB) (u : Id) (items : List CartItem) :
    ((cartRepository.update db u items).1).products = db.products ∧
    ((cartRepository.update db u items).1).stores = db.stores ∧
    ((cartRepository.update db u items).1).orders = db.orders := by
  unfold cartRepository.update
  cases hc : (db.carts.find? (fun c => c.user = u)).isSome <;> simp [hc]

/-- Product lookup only reads the products collection. -/
theorem findById_products_congr (db' db : DB) (h : db'.products = db.products)
    (pid : Id) :
    productRepository.findById db' pid = productRepository.findById db pid := by
  unfold productRepository.findById
  rw [h]

/-- After `cartRepository.update`, the stored items of that user are exactly
the written items, each product cast to its identifier. -/
theorem storedCartItems_update (db : DB) (u : Id) (items : List CartItem) :
    storedCartItems (cartRepository.update db u items).1 u =
      items.map CartItem.toStored := by
  unfold cartRepository.update storedCartItems
  cases hc : db.carts.find? (fun c => c.user = u) with
  | none =>
    simp only [hc, Option.isSome_none, Bool.false_eq_true, if_false]
    rw [List.find?_append, hc]
    simp [List.find?]
  | some c =>
    have huser : c.user = u := by simpa using List.find?_some hc
    simp only [hc, Option.isSome_some, if_true]
    rw [find?_map_pred _ _
      (fun x => by by_cases hx : x.user = u <;> simp [hx]) _, hc]
    simp [huser]

/-- The cart returned by `cartRepository.update`: the written items,
re-populated against the new database. -/
theorem cartRepository.update_snd (db : DB) (u : Id) (items : List CartItem) :
    (cartRepository.update db u items).2 =
      { user := u,
        items := (items.map CartItem.toStored).map
          (cartRepository.populateItem (cartRepository.update db u items).1) } := rfl

/-- Syncing a single new item into an empty cart appends it raw and writes
the cart through. -/
theorem syncCart_single_new (db : DB) (u p q s : Nat) (prod : Product)
    (hp : productRepository.findById db p = some prod)
    (hempty : CartService.dbItemsOf db u = []) :
    CartService.syncCart db u [⟨p, q, s⟩] =
      ((cartRepository.update db u [⟨.raw p, q, s⟩]).1,
       .ok (cartRepository.update db u [⟨.raw p, q, s⟩]).2) := by
  unfold CartService.syncCart
  rw [hempty]
  simp [CartService.mergeLoop, CartService.findIndexJS, CartService.updateCart,
        CartProd.castId, hp]

/-- Syncing a single item that matches the lone populated persisted item
adds the quantities and writes the cart through. -/
theorem syncCart_single_match (db : DB) (u p q q0 s s0 : Nat) (prod : Product)
    (hp : productRepository.findById db p = some prod)
    (hitems : CartService.dbItemsOf db u = [⟨.pop (some prod), q0, s0⟩]) :
    CartService.syncCart db u [⟨p, q, s⟩] =
      ((cartRepository.update db u [⟨.pop (some prod), q0 + q, s0⟩]).1,
       .ok (cartRepository.update db u [⟨.pop (some prod), q0 + q, s0⟩]).2) := by
  unfold CartService.syncCart
  rw [hitems]
  have hid : prod._id = p := findById_id db p prod hp
  simp [CartService.mergeLoop, CartService.findIndexJS, CartProd.idToString,
        hid, CartService.addQtyAt, CartService.updateCart, CartProd.castId, hp]

/-! ### Claim C8 -/

/-- C8: cart sync merges by product identity and the merged list replaces
the persisted items wholesale, so syncing the same single-item list of
quantity q twice against an initially empty persisted cart stores quantity
q after the first call and 2q after the second — additive, not
idempotent. -/
theorem syncCart_double_additive (db : DB) (u p q s : Nat) (prod : Product)
    (hp : productRepository.findById db p = some prod)
    (hempty : storedCartItems db u = []) :
    ∃ db1 c1, CartService.syncCart db u [⟨p, q, s⟩] = (db1, .ok c1) ∧
      c1.items = [⟨.pop (some prod), q, s⟩] ∧
      storedCartItems db1 u = [{ product := p, quantity := q, store := s }] ∧
      ∃ db2 c2, CartService.syncCart db1 u [⟨p, q, s⟩] = (db2, .ok c2) ∧
        c2.items = [⟨.pop (some prod), q + q, s⟩] ∧
        storedCartItems db2 u = [{ product := p, quantity := q + q, store := s }] := by
  have hempty2 : CartService.dbItemsOf db u = [] := by
    rw [dbItemsOf_eq, hempty]
    rfl
  have h1 := syncCart_single_new db u p q s prod hp hempty2
  have hpp : productRepository.findById (cartRepository.update db u [⟨.raw p, q, s⟩]).1 p =
      some prod :=
    (findById_products_congr _ db (cartRepository.update_only_carts db u _).1 p).trans hp
  have hstored1 : storedCartItems (cartRepository.update db u [⟨.raw p, q, s⟩]).1 u =
      [{ product := p, quantity := q, store := s }] := by
    simpa [CartProd.castId, CartItem.toStored] using
      storedCartItems_update db u [⟨.raw p, q, s⟩]
  have hc1 : (cartRepository.update db u [⟨.raw p, q, s⟩]).2.items =
      [⟨.pop (some prod), q, s⟩] := by
    rw [cartRepository.update_snd]
    simp [CartProd.castId, CartItem.toStored, cartRepository.populateItem, hpp]
  have hitems1 : CartService.dbItemsOf (cartRepository.update db u [⟨.raw p, q, s⟩]).1 u =
      [⟨.pop (some prod), q, s⟩] := by
    rw [dbItemsOf_eq, hstored1]
    simp [cartRepository.populateItem, hpp]
  have h2 := syncCart_single_match (cartRepository.update db u [⟨.raw p, q, s⟩]).1
    u p q q s s prod hpp hitems1
  have hid : prod._id = p := findById_id db p prod hp
  have hpp2 : productRepository.findById
      (cartRepository.update (cartRepository.update db u [⟨.raw p, q, s⟩]).1 u
        [⟨.pop (some prod), q + q, s⟩]).1 p = some prod :=
    (findById_products_congr _ _ (cartRepository.update_only_carts _ u _).1 p).trans hpp
  have hstored2 : storedCartItems
      (cartRepository.update (cartRepository.update db u [⟨.raw p, q, s⟩]).1 u
        [⟨.pop (some prod), q + q, s⟩]).1 u =
      [{ product := p, quantity := q + q, store := s }] := by
    rw [storedCartItems_update]
    simp [CartProd.castId, CartItem.toStored, hid]
  have hc2 : (cartRepository.update (cartRepository.update db u [⟨.raw p, q, s⟩]).1 u
      [⟨.pop (some prod), q + q, s⟩]).2.items = [⟨.pop (some prod), q + q, s⟩] := by
    rw [cartRepository.update_snd]
    simp [CartProd.castId, CartItem.toStored, cartRepository.populateItem, hid, hpp2]
  exact ⟨_, _, h1, hc1, hstored1, _, _, h2, hc2, hstored2⟩

/-- C8 witness: syncing `[{product 1, qty 4, store 7}]` twice into
`sampleDB` (user 8 has no cart) stores quantity 4 then 8. -/
theorem syncCart_double_additive_witness :
    ∃ db1 c1, CartService.syncCart sampleDB 8 [⟨1, 4, 7⟩] = (db1, .ok c1) ∧
      c1.items = [⟨.pop (some widget), 4, 7⟩] ∧
      storedCartItems db1 8 = [{ product := 1, quantity := 4, store := 7 }] ∧
      ∃ db2 c2, CartService.syncCart db1 8 [⟨1, 4, 7⟩] = (db2, .ok c2) ∧
        c2.items = [⟨.pop (some widget), 4 + 4, 7⟩] ∧
        storedCartItems db2 8 = [{ product := 1, quantity := 4 + 4, store := 7 }] :=
  syncCart_double_additive sampleDB 8 1 4 7 widget (by decide) (by decide)

/-! ### Claim C10 -/

/-- C10 counterexample: persisted cart of user 8 holds populated product 1;
the incoming list `[{product 2 (new, non-final)}, {product 1}]` satisfies
the claim's hypothesis, yet processing the later item finds its populated
match at index 0 before reaching the appended raw entry, so sync succeeds
(no TypeError) and returns the merged cart. -/
theorem syncCart_crash_claim_counterexample :
    storedCartItems cartDB 8 = [{ product := 1, quantity := 1, store := 7 }] ∧
    ¬ (2 = 1) ∧
    (CartService.syncCart cartDB 8 [⟨2, 1, 7⟩, ⟨1, 3, 7⟩]).2.isOk = true ∧
    storedCartItems (CartService.syncCart cartDB 8 [⟨2, 1, 7⟩, ⟨1, 3, 7⟩]).1 8 =
      [{ product := 1, quantity := 4, store := 7 },
       { product := 2, quantity := 1, store := 7 }] := by decide

/-- C10 amended: the TypeError fires exactly when a later item's scan
reaches an appended raw entry; in particular, whenever the persisted cart
is empty every sync of two or more items crashes — the first item is
appended raw and processing the second evaluates `._id` on it. -/
theorem syncCart_empty_cart_multi_crash (db : DB) (userId : Id)
    (l1 l2 : LocalItem) (rest : List LocalItem)
    (hempty : CartService.dbItemsOf db userId = []) :
    CartService.syncCart db userId (l1 :: l2 :: rest) = (db, .error .typeError) := by
  unfold CartService.syncCart
  rw [hempty]
  simp [CartService.mergeLoop, CartService.findIndexJS, CartProd.idToString]

/-- C10 witness: syncing two distinct new products into an empty cart
throws the TypeError. -/
theorem syncCart_empty_cart_multi_crash_witness :
    CartService.syncCart sampleDB 8 [⟨1, 1, 7⟩, ⟨2, 1, 7⟩] =
      (sampleDB, .error .typeError) :=
  syncCart_empty_cart_multi_crash sampleDB 8 ⟨1, 1, 7⟩ ⟨2, 1, 7⟩ [] (by decide)

end MercadoTech
